import Mathlib

/-!
Verification of the job-lifecycle transition engine and the daily analytics
aggregator of the Articademy backend (shallow embedding of
models/Job.js, models/Analytics.js and routes/jobRoutes.js).

Timestamps are modelled as integers (milliseconds); the 7-day and 30-day
thresholds of the lifecycle engine are the corresponding millisecond counts.
-/

namespace Articademy

/-- Milliseconds in one day. -/
def dayMs : Int := 86400000

/-- The 7-day active-age threshold (milliseconds). -/
def sevenDays : Int := 7 * dayMs

/-- The 30-day dump-age threshold (milliseconds). -/
def thirtyDays : Int := 30 * dayMs

/-- Job status enumeration from the jobSchema: active, dump or inactive. -/
inductive Status where
  | active
  | dump
  | inactive
deriving DecidableEq, BEq, Repr

/-- A job document, with the lifecycle fields, the per-job analytics counters
(the analytics subdocument of the jobSchema, flattened) and the descriptive
fields the core carries but never interprets. -/
structure Job where
  status : Status
  datePosted : Int
  movedToDumpAt : Option Int
  lastStatusChange : Int
  isActive : Bool
  views : Nat
  clicks : Nat
  lastViewedAt : Option Int
  lastClickedAt : Option Int
  companyName : String
  role : String
  location : String
  experience : String
  description : String
  requiredDegree : String
  employmentType : String
  hiringLink : String
deriving DecidableEq, Repr

/-- A freshly created job (POST handler forces status active; schema defaults
give movedToDumpAt null, isActive true, zero counters, datePosted now). -/
def freshJob (now : Int) : Job :=
  { status := Status.active
    datePosted := now
    movedToDumpAt := none
    lastStatusChange := now
    isActive := true
    views := 0
    clicks := 0
    lastViewedAt := none
    lastClickedAt := none
    companyName := ""
    role := ""
    location := ""
    experience := ""
    description := ""
    requiredDegree := ""
    employmentType := ""
    hiringLink := "" }

/-- jobSchema.methods.moveToDump: set status dump, stamp movedToDumpAt and
lastStatusChange with the current time. -/
def Job.moveToDump (now : Int) (j : Job) : Job :=
  { j with status := Status.dump
           movedToDumpAt := some now
           lastStatusChange := now }

/-- jobSchema.methods.moveToInactive: set status inactive, clear isActive,
stamp lastStatusChange. It does not touch movedToDumpAt. -/
def Job.moveToInactive (now : Int) (j : Job) : Job :=
  { j with status := Status.inactive
           isActive := false
           lastStatusChange := now }

/-- jobSchema.methods.reactivate: back to active, isActive true, movedToDumpAt
cleared, lastStatusChange stamped and datePosted reset to the current time. -/
def Job.reactivate (now : Int) (j : Job) : Job :=
  { j with status := Status.active
           isActive := true
           movedToDumpAt := none
           lastStatusChange := now
           datePosted := now }

/-- jobSchema.methods.incrementViews. -/
def Job.incrementViews (now : Int) (j : Job) : Job :=
  { j with views := j.views + 1, lastViewedAt := some now }

/-- jobSchema.methods.incrementClicks. -/
def Job.incrementClicks (now : Int) (j : Job) : Job :=
  { j with clicks := j.clicks + 1, lastClickedAt := some now }

/-- The filter of the first updateMany of processStatusChanges:
status active and datePosted strictly before now minus seven days. -/
def shouldDump (now : Int) (j : Job) : Bool :=
  decide (j.status = Status.active) && decide (j.datePosted < now - sevenDays)

/-- The filter of the second updateMany of processStatusChanges: status dump
and movedToDumpAt strictly before now minus thirty days (a null
movedToDumpAt never matches the Mongo comparison). -/
def shouldInactivate (now : Int) (j : Job) : Bool :=
  decide (j.status = Status.dump) &&
    match j.movedToDumpAt with
    | some t => decide (t < now - thirtyDays)
    | none => false

/-- Effect of the first updateMany on one document. -/
def stepDump (now : Int) (j : Job) : Job :=
  if shouldDump now j then j.moveToDump now else j

/-- Effect of the second updateMany on one document. -/
def stepInact (now : Int) (j : Job) : Job :=
  if shouldInactivate now j then j.moveToInactive now else j

/-- jobSchema.statics.processStatusChanges over a store of jobs: first bulk
update moves every matching active job to dump, the second then moves every
matching dump job to inactive; the returned counts are the modified counts of
the two updates. -/
def processStatusChanges (now : Int) (store : List Job) : List Job × Nat × Nat :=
  let afterDump := store.map (stepDump now)
  let movedToDump := store.countP (shouldDump now)
  let afterInact := afterDump.map (stepInact now)
  let movedToInactive := afterDump.countP (shouldInactivate now)
  (afterInact, movedToDump, movedToInactive)

/-- One document's view of a whole automatic pass. -/
def stepPass (now : Int) (j : Job) : Job :=
  stepInact now (stepDump now j)

/-- The operations of the core acting on a single job: the automatic pass,
the three manual transitions of the PUT status handler, and the two counter
increments. -/
inductive Op where
  | autoPass (now : Int)
  | manualDump (now : Int)
  | manualInactive (now : Int)
  | reactivate (now : Int)
  | incView (now : Int)
  | incClick (now : Int)
deriving DecidableEq, Repr

def applyOp : Op → Job → Job
  | Op.autoPass now, j => stepPass now j
  | Op.manualDump now, j => j.moveToDump now
  | Op.manualInactive now, j => j.moveToInactive now
  | Op.reactivate now, j => j.reactivate now
  | Op.incView now, j => j.incrementViews now
  | Op.incClick now, j => j.incrementClicks now

def applySeq : List Op → Job → Job
  | [], j => j
  | o :: os, j => applySeq os (applyOp o j)

/-- The two spec invariants on a job document. -/
def Job.invariant (j : Job) : Prop :=
  (j.movedToDumpAt ≠ none ↔ (j.status = Status.dump ∨ j.status = Status.inactive)) ∧
  (j.isActive = false ↔ j.status = Status.inactive)

instance (j : Job) : Decidable j.invariant := by
  unfold Job.invariant; infer_instance

/-- Guard under which one operation preserves the invariants: a manual move
to dump must not start from an inactive job, and a manual move to inactive
must not start from a job whose movedToDumpAt is still null. -/
def opOk : Op → Job → Bool
  | Op.manualDump _, j => !(decide (j.status = Status.inactive))
  | Op.manualInactive _, j => !j.movedToDumpAt.isNone
  | _, _ => true

def seqOk : List Op → Job → Bool
  | [], _ => true
  | o :: os, j => opOk o j && seqOk os (applyOp o j)

/-! ## HTTP handlers around the analytics writes (routes/jobRoutes.js)

A storage error raised by an awaited analytics write is modelled by an
Except value; a handler body is an Except computation whose uncaught error
is turned into a 500 response by the surrounding catch. -/

/-- The single storage error kind the analytics claims need. -/
inductive StorageErr where
  | failure
deriving DecidableEq, Repr

/-- A simplified HTTP response: status code plus the payloads the public
handlers return (the served job, the hiring link). -/
structure Response where
  status : Nat
  jobPayload : Option Job := none
  link : Option String := none
deriving DecidableEq, Repr

/-- The trackAnalytics middleware: it awaits recordWebsiteVisit inside its
own try/catch and calls next() on both branches, so it never produces a
response of its own (none means the request continues to the handler). -/
def trackAnalytics (visitResult : Except StorageErr Unit) : Option Response :=
  match visitResult with
  | Except.ok _ => none
  | Except.error _ => none

/-- GET /api/jobs: the trackAnalytics middleware runs first; if it yields a
response that is returned, otherwise the listing handler produces its
result. -/
def listJobsRoute (visitResult : Except StorageErr Unit) (listing : Response) :
    Response :=
  match trackAnalytics visitResult with
  | some r => r
  | none => listing

/-- Try-block of GET /api/jobs/:id: 404 unless the job exists, is active and
isActive; otherwise increment its views, await Analytics.recordJobView (which
may fail) and serve the job. -/
def getJobTry (found : Option Job) (recordViewResult : Except StorageErr Unit)
    (now : Int) : Except StorageErr Response :=
  match found with
  | none => Except.ok { status := 404 }
  | some j =>
    if j.status = Status.active ∧ j.isActive = true then do
      let _ ← recordViewResult
      Except.ok { status := 200, jobPayload := some (j.incrementViews now) }
    else
      Except.ok { status := 404 }

/-- GET /api/jobs/:id with its middleware and its catch-all 500. -/
def getJobRoute (visitResult : Except StorageErr Unit) (found : Option Job)
    (recordViewResult : Except StorageErr Unit) (now : Int) : Response :=
  match trackAnalytics visitResult with
  | some r => r
  | none =>
    match getJobTry found recordViewResult now with
    | Except.ok r => r
    | Except.error _ => { status := 500 }

/-- Try-block of POST /api/jobs/:id/click: 404 unless the job exists, is
active and isActive; otherwise increment its clicks, await
Analytics.recordJobClick (which may fail) and answer with the hiring link. -/
def clickJobTry (found : Option Job) (recordClickResult : Except StorageErr Unit)
    (_now : Int) : Except StorageErr Response :=
  match found with
  | none => Except.ok { status := 404 }
  | some j =>
    if j.status = Status.active ∧ j.isActive = true then do
      let _ ← recordClickResult
      Except.ok { status := 200, link := some j.hiringLink }
    else
      Except.ok { status := 404 }

/-- POST /api/jobs/:id/click with its catch-all 500 (this route has no
trackAnalytics middleware). -/
def clickJobRoute (found : Option Job) (recordClickResult : Except StorageErr Unit)
    (now : Int) : Response :=
  match clickJobTry found recordClickResult now with
  | Except.ok r => r
  | Except.error _ => { status := 500 }

/-! ## Analytics aggregator (models/Analytics.js)

Bucket dates are integers; a bucket's date is its UTC midnight. Job ids in
the per-job counter lists are natural numbers, and the set of jobs still
present in the store is a list of ids (the populate match on a non-null
status holds exactly for documents that still exist, since the schema makes
status a defaulted enum). -/

/-- One uniqueVisitors array entry. -/
structure Visitor where
  ip : String
  userAgent : String
  timestamp : Int
deriving DecidableEq, Repr

/-- One jobViews or jobClicks array entry. -/
structure JobCount where
  jobId : Nat
  count : Nat
deriving DecidableEq, Repr

/-- The deviceInfo counters. -/
structure DeviceInfo where
  desktop : Nat
  mobile : Nat
  tablet : Nat
deriving DecidableEq, Repr

/-- The browserInfo counters. -/
structure BrowserInfo where
  chrome : Nat
  firefox : Nat
  safari : Nat
  edge : Nat
  others : Nat
deriving DecidableEq, Repr

/-- One analytics document: the per-day bucket. -/
structure Bucket where
  date : Int
  websiteVisits : Nat
  uniqueVisitors : List Visitor
  jobViews : List JobCount
  jobClicks : List JobCount
  deviceInfo : DeviceInfo
  browserInfo : BrowserInfo
deriving DecidableEq, Repr

/-- A bucket freshly created for a day (all schema defaults). -/
def emptyBucket (date : Int) : Bucket :=
  { date := date
    websiteVisits := 0
    uniqueVisitors := []
    jobViews := []
    jobClicks := []
    deviceInfo := { desktop := 0, mobile := 0, tablet := 0 }
    browserInfo := { chrome := 0, firefox := 0, safari := 0, edge := 0, others := 0 } }

/-- Whether the character list n occurs at the head of h. -/
def leadsWith : List Char → List Char → Bool
  | [], _ => true
  | _ :: _, [] => false
  | a :: as, b :: bs => a == b && leadsWith as bs

/-- Whether the character list n occurs anywhere inside h. -/
def occursIn (n : List Char) : List Char → Bool
  | [] => n.isEmpty
  | c :: t => leadsWith n (c :: t) || occursIn n t

/-- JavaScript String.includes on our strings. -/
def strIncludes (s sub : String) : Bool :=
  occursIn sub.data s.data

/-- The device classification of recordWebsiteVisit: Mobile beats Tablet
beats the desktop default. -/
def classifyDevice (userAgent : String) (d : DeviceInfo) : DeviceInfo :=
  if strIncludes userAgent ("Mobile") then { d with mobile := d.mobile + 1 }
  else if strIncludes userAgent ("Tablet") then { d with tablet := d.tablet + 1 }
  else { d with desktop := d.desktop + 1 }

/-- The browser classification of recordWebsiteVisit, in its fixed if/else
order Chrome, Firefox, Safari, Edge, others. -/
def classifyBrowser (userAgent : String) (b : BrowserInfo) : BrowserInfo :=
  if strIncludes userAgent ("Chrome") then { b with chrome := b.chrome + 1 }
  else if strIncludes userAgent ("Firefox") then { b with firefox := b.firefox + 1 }
  else if strIncludes userAgent ("Safari") then { b with safari := b.safari + 1 }
  else if strIncludes userAgent ("Edge") then { b with edge := b.edge + 1 }
  else { b with others := b.others + 1 }

/-- analyticsSchema.statics.recordWebsiteVisit acting on the day's bucket:
push the visitor pair when it is not yet present, increment websiteVisits
unconditionally, and bump one device and one browser counter. -/
def recordWebsiteVisit (ip userAgent : String) (now : Int) (b : Bucket) : Bucket :=
  let uniq :=
    if (b.uniqueVisitors.find? (fun v => v.ip == ip && v.userAgent == userAgent)).isNone
    then b.uniqueVisitors ++ [{ ip := ip, userAgent := userAgent, timestamp := now }]
    else b.uniqueVisitors
  { b with uniqueVisitors := uniq
           websiteVisits := b.websiteVisits + 1
           deviceInfo := classifyDevice userAgent b.deviceInfo
           browserInfo := classifyBrowser userAgent b.browserInfo }

/-- Increment the first entry of a per-job counter list matching the id, or
append a fresh entry with count 1 (the find-or-push of recordJobView and
recordJobClick). -/
def bumpJob (jobId : Nat) : List JobCount → List JobCount
  | [] => [{ jobId := jobId, count := 1 }]
  | e :: rest =>
    if e.jobId == jobId then { e with count := e.count + 1 } :: rest
    else e :: bumpJob jobId rest

/-- analyticsSchema.statics.recordJobView acting on the day's bucket. -/
def recordJobView (jobId : Nat) (b : Bucket) : Bucket :=
  { b with jobViews := bumpJob jobId b.jobViews }

/-- analyticsSchema.statics.recordJobClick acting on the day's bucket. -/
def recordJobClick (jobId : Nat) (b : Bucket) : Bucket :=
  { b with jobClicks := bumpJob jobId b.jobClicks }

/-- The Record operations acting on one day's bucket. -/
inductive AOp where
  | visit (ip userAgent : String) (now : Int)
  | view (jobId : Nat)
  | click (jobId : Nat)
deriving DecidableEq, Repr

def applyAOp : AOp → Bucket → Bucket
  | AOp.visit ip ua now, b => recordWebsiteVisit ip ua now b
  | AOp.view jobId, b => recordJobView jobId b
  | AOp.click jobId, b => recordJobClick jobId b

def applyAOps : List AOp → Bucket → Bucket
  | [], b => b
  | o :: os, b => applyAOps os (applyAOp o b)

/-- The counter coherence invariant of a bucket: the device counters and the
browser counters each sum to websiteVisits. -/
def Bucket.countersOk (b : Bucket) : Prop :=
  b.deviceInfo.desktop + b.deviceInfo.mobile + b.deviceInfo.tablet = b.websiteVisits ∧
  b.browserInfo.chrome + b.browserInfo.firefox + b.browserInfo.safari +
    b.browserInfo.edge + b.browserInfo.others = b.websiteVisits

instance (b : Bucket) : Decidable b.countersOk := by
  unfold Bucket.countersOk; infer_instance

/-! ## Range and dashboard queries -/

/-- A per-job entry after populate: a reference that resolved to null when
the job no longer exists, and the stored count. -/
structure PopEntry where
  jobId : Option Nat
  count : Nat
deriving DecidableEq, Repr

/-- A bucket as returned by getAnalyticsForDateRange (per-job references
resolved against the current job store). -/
structure PopBucket where
  date : Int
  websiteVisits : Nat
  uniqueVisitors : List Visitor
  jobViews : List PopEntry
  jobClicks : List PopEntry
  deviceInfo : DeviceInfo
  browserInfo : BrowserInfo
deriving DecidableEq, Repr

/-- populate on one per-job entry: the reference resolves when the job id is
still present in the store, and to null otherwise; the count is kept. -/
def populateEntry (jobs : List Nat) (e : JobCount) : PopEntry :=
  { jobId := if jobs.contains e.jobId then some e.jobId else none
    count := e.count }

/-- populate on one bucket: both per-job lists are resolved entrywise. -/
def populateBucket (jobs : List Nat) (b : Bucket) : PopBucket :=
  { date := b.date
    websiteVisits := b.websiteVisits
    uniqueVisitors := b.uniqueVisitors
    jobViews := b.jobViews.map (populateEntry jobs)
    jobClicks := b.jobClicks.map (populateEntry jobs)
    deviceInfo := b.deviceInfo
    browserInfo := b.browserInfo }

/-- analyticsSchema.statics.getAnalyticsForDateRange: the buckets whose date
lies between startDate and endDate inclusive, populated against the jobs
still in the store. -/
def getAnalyticsForDateRange (store : List Bucket) (jobs : List Nat)
    (startDate endDate : Int) : List PopBucket :=
  (store.filter (fun b => decide (startDate ≤ b.date) && decide (b.date ≤ endDate))).map
    (populateBucket jobs)

/-- The rollup record of getDashboardAnalytics (the conversionRate field,
computed with JavaScript floating-point division and toFixed, is not part of
this integer model). -/
structure Dashboard where
  totalVisits : Nat
  totalUniqueVisitors : Nat
  totalJobViews : Nat
  totalJobClicks : Nat
  dailyAnalytics : List PopBucket
deriving DecidableEq, Repr

/-- analyticsSchema.statics.getDashboardAnalytics: the range query from the
midnight of (today - days) to the end of today, then the four reduce totals.
With dates at day granularity the window is the inclusive interval from
today - days to today. -/
def getDashboardAnalytics (store : List Bucket) (jobs : List Nat)
    (today : Int) (days : Nat) : Dashboard :=
  let endDate := today
  let startDate := today - (days : Int)
  let analytics := getAnalyticsForDateRange store jobs startDate endDate
  { totalVisits := (analytics.map (fun b => b.websiteVisits)).sum
    totalUniqueVisitors := (analytics.map (fun b => b.uniqueVisitors.length)).sum
    totalJobViews := (analytics.map (fun b => (b.jobViews.map (fun e => e.count)).sum)).sum
    totalJobClicks := (analytics.map (fun b => (b.jobClicks.map (fun e => e.count)).sum)).sum
    dailyAnalytics := analytics }

/-! ## Helper lemmas on the lifecycle pass -/

theorem shouldDump_moveToDump (now t : Int) (j : Job) :
    shouldDump now (j.moveToDump t) = false := by
  simp [shouldDump, Job.moveToDump]

theorem shouldInactivate_moveToDump (now : Int) (j : Job) :
    shouldInactivate now (j.moveToDump now) = false := by
  simp only [shouldInactivate, Job.moveToDump]
  have h : ¬ now < now - thirtyDays := by simp [thirtyDays, dayMs]
  simp [h]

theorem shouldDump_moveToInactive (now t : Int) (j : Job) :
    shouldDump now (j.moveToInactive t) = false := by
  simp [shouldDump, Job.moveToInactive]

theorem shouldInactivate_moveToInactive (now t : Int) (j : Job) :
    shouldInactivate now (j.moveToInactive t) = false := by
  simp [shouldInactivate, Job.moveToInactive]

theorem stepDump_pos (now : Int) (j : Job) (h : shouldDump now j = true) :
    stepDump now j = j.moveToDump now := by
  unfold stepDump; rw [h]; simp

theorem stepDump_neg (now : Int) (j : Job) (h : shouldDump now j = false) :
    stepDump now j = j := by
  unfold stepDump; rw [h]; simp

theorem stepInact_pos (now : Int) (j : Job) (h : shouldInactivate now j = true) :
    stepInact now j = j.moveToInactive now := by
  unfold stepInact; rw [h]; simp

theorem stepInact_neg (now : Int) (j : Job) (h : shouldInactivate now j = false) :
    stepInact now j = j := by
  unfold stepInact; rw [h]; simp

/-- After one automatic pass a document matches neither bulk filter. -/
theorem stepPass_fix (now : Int) (j : Job) :
    shouldDump now (stepPass now j) = false ∧
    shouldInactivate now (stepPass now j) = false := by
  unfold stepPass
  by_cases h1 : shouldDump now j = true
  · rw [stepDump_pos now j h1, stepInact_neg now _ (shouldInactivate_moveToDump now j)]
    exact ⟨shouldDump_moveToDump now now j, shouldInactivate_moveToDump now j⟩
  · rw [stepDump_neg now j (Bool.eq_false_iff.mpr h1)]
    by_cases h2 : shouldInactivate now j = true
    · rw [stepInact_pos now j h2]
      exact ⟨shouldDump_moveToInactive now now j, shouldInactivate_moveToInactive now now j⟩
    · rw [stepInact_neg now j (Bool.eq_false_iff.mpr h2)]
      exact ⟨Bool.eq_false_iff.mpr h1, Bool.eq_false_iff.mpr h2⟩

theorem processStatusChanges_fst (now : Int) (store : List Job) :
    (processStatusChanges now store).1 = store.map (stepPass now) := by
  simp [processStatusChanges, stepPass, List.map_map, Function.comp_def]

theorem map_fix_eq_self {α : Type} (f : α → α) :
    ∀ l : List α, (∀ x ∈ l, f x = x) → l.map f = l
  | [], _ => rfl
  | a :: t, h => by
    have ht := map_fix_eq_self f t (fun x hx => h x (List.mem_cons_of_mem a hx))
    simp [ht, h a (List.mem_cons_self a t)]

/-- C5 — ProcessTransitions is idempotent at a fixed clock value: a second
pass at the same now changes no job and reports zero moved counts. -/
theorem processTransitions_idempotent (now : Int) (store : List Job) :
    (processStatusChanges now (processStatusChanges now store).1).1
      = (processStatusChanges now store).1 ∧
    (processStatusChanges now (processStatusChanges now store).1).2.1 = 0 ∧
    (processStatusChanges now (processStatusChanges now store).1).2.2 = 0 := by
  have hmem : ∀ x ∈ (processStatusChanges now store).1,
      shouldDump now x = false ∧ shouldInactivate now x = false := by
    intro x hx
    rw [processStatusChanges_fst] at hx
    obtain ⟨j, _, rfl⟩ := List.mem_map.mp hx
    exact stepPass_fix now j
  have hdump : ((processStatusChanges now store).1).map (stepDump now)
      = (processStatusChanges now store).1 := by
    apply map_fix_eq_self
    intro x hx
    simp [stepDump, (hmem x hx).1]
  refine ⟨?_, ?_, ?_⟩
  · show ((((processStatusChanges now store).1).map (stepDump now)).map (stepInact now)) = _
    rw [hdump]
    apply map_fix_eq_self
    intro x hx
    simp [stepInact, (hmem x hx).2]
  · show ((processStatusChanges now store).1).countP (shouldDump now) = 0
    exact List.countP_eq_zero.mpr (fun a ha => by simp [(hmem a ha).1])
  · show (((processStatusChanges now store).1).map (stepDump now)).countP
        (shouldInactivate now) = 0
    rw [hdump]
    exact List.countP_eq_zero.mpr (fun a ha => by simp [(hmem a ha).2])

/-- C1 (amended) — within a pass, an active job is moved to dump iff it is
strictly older than seven days: the pass maps stepPass over the store, an
active job's stepPass is exactly the moveToDump stamping when
now - datePosted exceeds seven days and the identity otherwise, so a job
aged exactly seven days (or less) is not transitioned. -/
theorem activeToDump_iff_strict (now : Int) (store : List Job) (j : Job)
    (h : j.status = Status.active) :
    (processStatusChanges now store).1 = store.map (stepPass now) ∧
    stepPass now j = (if now - j.datePosted > sevenDays then j.moveToDump now else j) ∧
    ((stepPass now j).status = Status.dump ↔ now - j.datePosted > sevenDays) := by
  have harith : (j.datePosted < now - sevenDays) ↔ (now - j.datePosted > sevenDays) := by
    omega
  have hd : shouldDump now j = decide (now - j.datePosted > sevenDays) := by
    simp [shouldDump, h, harith]
  have hni : shouldInactivate now j = false := by
    simp [shouldInactivate, h]
  have hstep : stepPass now j
      = (if now - j.datePosted > sevenDays then j.moveToDump now else j) := by
    unfold stepPass
    by_cases hc : now - j.datePosted > sevenDays
    · rw [if_pos hc, stepDump_pos now j (by rw [hd]; exact decide_eq_true hc),
          stepInact_neg now _ (shouldInactivate_moveToDump now j)]
    · rw [if_neg hc,
          stepDump_neg now j (by rw [hd]; exact decide_eq_false hc),
          stepInact_neg now j hni]
  refine ⟨processStatusChanges_fst now store, hstep, ?_⟩
  rw [hstep]
  by_cases hc : now - j.datePosted > sevenDays
  · rw [if_pos hc]
    simp [Job.moveToDump, hc]
  · rw [if_neg hc]
    simp [h, hc]

/-- Witness for the amended C1 at a concrete job aged seven days plus one
millisecond. -/
theorem activeToDump_iff_strict_witness :
    (freshJob 0).status = Status.active ∧
    ((processStatusChanges (sevenDays + 1) [freshJob 0]).1
        = [freshJob 0].map (stepPass (sevenDays + 1)) ∧
     stepPass (sevenDays + 1) (freshJob 0)
        = (if sevenDays + 1 - (freshJob 0).datePosted > sevenDays
           then (freshJob 0).moveToDump (sevenDays + 1) else freshJob 0) ∧
     ((stepPass (sevenDays + 1) (freshJob 0)).status = Status.dump ↔
        sevenDays + 1 - (freshJob 0).datePosted > sevenDays)) :=
  ⟨rfl, activeToDump_iff_strict (sevenDays + 1) [freshJob 0] (freshJob 0) rfl⟩

/-- C1 counterexample — a job whose age is exactly seven days (datePosted 0,
now = sevenDays) is NOT transitioned by the pass and the moved count is 0,
refuting the claimed non-strict threshold. -/
theorem activeToDump_boundary_cex :
    (freshJob 0).status = Status.active ∧
    sevenDays - (freshJob 0).datePosted ≥ sevenDays ∧
    (processStatusChanges sevenDays [freshJob 0]).1 = [freshJob 0] ∧
    (processStatusChanges sevenDays [freshJob 0]).2.1 = 0 := by
  decide

/-- C4 — a job moved active → dump in step (a) of a pass carries
movedToDumpAt = now, which can never satisfy step (b)'s filter in the same
pass; and step (b) only transitions jobs whose movedToDumpAt predates now by
at least thirty days. -/
theorem no_double_transition_same_pass (now : Int) (j : Job)
    (h : shouldDump now j = true) :
    stepDump now j = j.moveToDump now ∧
    (j.moveToDump now).movedToDumpAt = some now ∧
    shouldInactivate now (stepDump now j) = false ∧
    stepInact now (stepDump now j) = j.moveToDump now ∧
    (∀ k : Job, shouldInactivate now k = true →
        ∃ t, k.movedToDumpAt = some t ∧ now - t ≥ thirtyDays) := by
  have hsd : stepDump now j = j.moveToDump now := by simp [stepDump, h]
  refine ⟨hsd, rfl, ?_, ?_, ?_⟩
  · rw [hsd]; exact shouldInactivate_moveToDump now j
  · rw [hsd]; simp [stepInact, shouldInactivate_moveToDump]
  · intro k hk
    simp only [shouldInactivate, Bool.and_eq_true] at hk
    obtain ⟨-, hk2⟩ := hk
    match hmt : k.movedToDumpAt with
    | some t =>
      refine ⟨t, rfl, ?_⟩
      rw [hmt] at hk2
      simp only [decide_eq_true_eq] at hk2
      have : (0:Int) < thirtyDays := by norm_num [thirtyDays, dayMs]
      omega
    | none => rw [hmt] at hk2; simp at hk2

/-- Witness for C4 at a concrete just-overage job. -/
theorem no_double_transition_same_pass_witness :
    shouldDump (sevenDays + 1) (freshJob 0) = true ∧
    (stepDump (sevenDays + 1) (freshJob 0) = (freshJob 0).moveToDump (sevenDays + 1) ∧
     ((freshJob 0).moveToDump (sevenDays + 1)).movedToDumpAt = some (sevenDays + 1) ∧
     shouldInactivate (sevenDays + 1) (stepDump (sevenDays + 1) (freshJob 0)) = false ∧
     stepInact (sevenDays + 1) (stepDump (sevenDays + 1) (freshJob 0))
        = (freshJob 0).moveToDump (sevenDays + 1) ∧
     (∀ k : Job, shouldInactivate (sevenDays + 1) k = true →
        ∃ t, k.movedToDumpAt = some t ∧ sevenDays + 1 - t ≥ thirtyDays)) :=
  ⟨by decide, no_double_transition_same_pass (sevenDays + 1) (freshJob 0) (by decide)⟩

/-! ## Invariant preservation -/

theorem invariant_applyOp (o : Op) (j : Job) (hj : j.invariant)
    (hok : opOk o j = true) : Job.invariant (applyOp o j) := by
  obtain ⟨h1, h2⟩ := hj
  cases o with
  | autoPass now =>
      show Job.invariant (stepPass now j)
      unfold stepPass
      by_cases hd : shouldDump now j = true
      · have hact : j.status = Status.active := by
          simp only [shouldDump, Bool.and_eq_true, decide_eq_true_eq] at hd
          exact hd.1
        have hia : j.isActive = true := by
          rcases Bool.eq_false_or_eq_true j.isActive with ht | hf
          · exact ht
          · exact absurd (h2.mp hf) (by rw [hact]; intro hcon; cases hcon)
        rw [stepDump_pos now j hd, stepInact_neg now _ (shouldInactivate_moveToDump now j)]
        refine ⟨?_, ?_⟩ <;> simp [Job.moveToDump, hia]
      · rw [stepDump_neg now j (Bool.eq_false_iff.mpr hd)]
        by_cases hi : shouldInactivate now j = true
        · have hdmp : j.status = Status.dump := by
            simp only [shouldInactivate, Bool.and_eq_true, decide_eq_true_eq] at hi
            exact hi.1
          have hmda : j.movedToDumpAt ≠ none := h1.mpr (Or.inl hdmp)
          rw [stepInact_pos now j hi]
          refine ⟨?_, ?_⟩ <;> simp [Job.moveToInactive, hmda]
        · rw [stepInact_neg now j (Bool.eq_false_iff.mpr hi)]
          exact ⟨h1, h2⟩
  | manualDump now =>
      have hni : j.status ≠ Status.inactive := by
        simp only [opOk, Bool.not_eq_eq_eq_not, Bool.not_true, decide_eq_false_iff_not] at hok
        exact hok
      have hia : j.isActive = true := by
        rcases Bool.eq_false_or_eq_true j.isActive with ht | hf
        · exact ht
        · exact absurd (h2.mp hf) hni
      show Job.invariant (j.moveToDump now)
      refine ⟨?_, ?_⟩ <;> simp [Job.moveToDump, hia]
  | manualInactive now =>
      have hmda : j.movedToDumpAt ≠ none := by
        simp only [opOk, Bool.not_eq_eq_eq_not, Bool.not_true, Option.isNone_eq_false_iff,
          Option.isSome_iff_ne_none] at hok
        exact hok
      show Job.invariant (j.moveToInactive now)
      refine ⟨?_, ?_⟩ <;> simp [Job.moveToInactive, hmda]
  | reactivate now =>
      show Job.invariant (j.reactivate now)
      refine ⟨?_, ?_⟩ <;> simp [Job.reactivate]
  | incView now =>
      show Job.invariant (j.incrementViews now)
      exact ⟨h1, h2⟩
  | incClick now =>
      show Job.invariant (j.incrementClicks now)
      exact ⟨h1, h2⟩

theorem invariant_applySeq (ops : List Op) :
    ∀ j : Job, j.invariant → seqOk ops j = true → Job.invariant (applySeq ops j) := by
  induction ops with
  | nil => intro j hj _; exact hj
  | cons o os ih =>
    intro j hj hok
    simp only [seqOk, Bool.and_eq_true] at hok
    exact ih (applyOp o j) (invariant_applyOp o j hj hok.1) hok.2

theorem freshJob_invariant (now : Int) : (freshJob now).invariant := by
  refine ⟨?_, ?_⟩ <;> simp [freshJob]

/-- C2 (amended) — the Job invariants hold after every guarded sequence of
core operations from a fresh job: all operations preserve them except a
manual MoveToInactive on a job whose movedToDumpAt is still null and a
manual MoveToDump on an inactive job, which the guard excludes. -/
theorem lifecycle_invariants_guarded (now : Int) (ops : List Op)
    (hok : seqOk ops (freshJob now) = true) :
    Job.invariant (applySeq ops (freshJob now)) :=
  invariant_applySeq ops (freshJob now) (freshJob_invariant now) hok

/-- Witness for the amended C2 on a concrete guarded sequence that exercises
a manual dump, a manual inactivation, a reactivation, the automatic pass and
an increment. -/
theorem lifecycle_invariants_guarded_witness :
    seqOk [Op.manualDump 1, Op.manualInactive 2, Op.reactivate 3, Op.incView 4,
           Op.autoPass 5] (freshJob 0) = true ∧
    Job.invariant (applySeq
      [Op.manualDump 1, Op.manualInactive 2, Op.reactivate 3, Op.incView 4,
       Op.autoPass 5] (freshJob 0)) :=
  ⟨by decide,
   lifecycle_invariants_guarded 0
     [Op.manualDump 1, Op.manualInactive 2, Op.reactivate 3, Op.incView 4,
      Op.autoPass 5] (by decide)⟩

/-- C2 counterexample — a manual MoveToInactive on a freshly created job
(whose movedToDumpAt is null) leaves status inactive with movedToDumpAt
null, violating the first invariant. -/
theorem lifecycle_invariants_cex :
    Job.invariant (freshJob 0) ∧
    ¬ Job.invariant (applySeq [Op.manualInactive 1] (freshJob 0)) := by
  decide

/-! ## Reactivation -/

/-- C6 — reactivate always restores status active, isActive, clears
movedToDumpAt, resets datePosted to the reactivation time and stamps
lastStatusChange, while leaving the accumulated view and click counters,
their timestamps, and every descriptive field unchanged. -/
theorem reactivate_resets_and_preserves (now : Int) (j : Job) :
    ((j.reactivate now).status = Status.active ∧
     (j.reactivate now).isActive = true ∧
     (j.reactivate now).movedToDumpAt = none ∧
     (j.reactivate now).datePosted = now ∧
     (j.reactivate now).lastStatusChange = now) ∧
    ((j.reactivate now).views = j.views ∧
     (j.reactivate now).clicks = j.clicks ∧
     (j.reactivate now).lastViewedAt = j.lastViewedAt ∧
     (j.reactivate now).lastClickedAt = j.lastClickedAt) ∧
    ((j.reactivate now).companyName = j.companyName ∧
     (j.reactivate now).role = j.role ∧
     (j.reactivate now).location = j.location ∧
     (j.reactivate now).experience = j.experience ∧
     (j.reactivate now).description = j.description ∧
     (j.reactivate now).requiredDegree = j.requiredDegree ∧
     (j.reactivate now).employmentType = j.employmentType ∧
     (j.reactivate now).hiringLink = j.hiringLink) := by
  refine ⟨⟨rfl, rfl, rfl, rfl, rfl⟩, ⟨rfl, rfl, rfl, rfl⟩,
    ⟨rfl, rfl, rfl, rfl, rfl, rfl, rfl, rfl⟩⟩

/-! ## Analytics failures and the public handlers -/

/-- C3 (amended) — a RecordVisit storage failure never propagates: the
trackAnalytics middleware swallows it and the listing is served with its
normal result for any visit outcome; but a RecordJobView failure aborts
GET /:id with a 500 instead of serving the job, and a RecordJobClick failure
aborts POST /:id/click with a 500 instead of returning the hiring link. -/
theorem analytics_failure_propagation (v : Except StorageErr Unit)
    (listing : Response) (j : Job) (now : Int)
    (h1 : j.status = Status.active) (h2 : j.isActive = true) :
    listJobsRoute v listing = listing ∧
    getJobRoute v (some j) (Except.ok ()) now
      = { status := 200, jobPayload := some (j.incrementViews now) } ∧
    getJobRoute v (some j) (Except.error StorageErr.failure) now = { status := 500 } ∧
    clickJobRoute (some j) (Except.ok ()) now
      = { status := 200, link := some j.hiringLink } ∧
    clickJobRoute (some j) (Except.error StorageErr.failure) now = { status := 500 } := by
    have htrack : trackAnalytics v = none := by cases v <;> rfl
    refine ⟨?_, ?_, ?_, ?_, ?_⟩
    · simp [listJobsRoute, htrack]
    · simp [getJobRoute, htrack, getJobTry, h1, h2]
      rfl
    · simp [getJobRoute, htrack, getJobTry, h1, h2]
      rfl
    · simp [clickJobRoute, clickJobTry, h1, h2]
      rfl
    · simp [clickJobRoute, clickJobTry, h1, h2]
      rfl

/-- Witness for the amended C3 on a concrete active job, with the visit
write failing. -/
theorem analytics_failure_propagation_witness :
    (freshJob 0).status = Status.active ∧ (freshJob 0).isActive = true ∧
    (listJobsRoute (Except.error StorageErr.failure) { status := 200 } = { status := 200 } ∧
     getJobRoute (Except.error StorageErr.failure) (some (freshJob 0)) (Except.ok ()) 5
       = { status := 200, jobPayload := some ((freshJob 0).incrementViews 5) } ∧
     getJobRoute (Except.error StorageErr.failure) (some (freshJob 0))
       (Except.error StorageErr.failure) 5 = { status := 500 } ∧
     clickJobRoute (some (freshJob 0)) (Except.ok ()) 5
       = { status := 200, link := some (freshJob 0).hiringLink } ∧
     clickJobRoute (some (freshJob 0)) (Except.error StorageErr.failure) 5
       = { status := 500 }) :=
  ⟨rfl, rfl,
   analytics_failure_propagation (Except.error StorageErr.failure)
     { status := 200 } (freshJob 0) 5 rfl rfl⟩

/-- C3 counterexample — with an active job present, a storage failure inside
the analytics write of POST /:id/click makes the handler answer 500 without
the hiring link, and likewise GET /:id answers 500 without the job: the
failure does propagate to the primary action. -/
theorem analytics_failure_cex :
    clickJobRoute (some (freshJob 0)) (Except.error StorageErr.failure) 5
      = { status := 500 } ∧
    clickJobRoute (some (freshJob 0)) (Except.ok ()) 5
      = { status := 200, link := some (freshJob 0).hiringLink } ∧
    getJobRoute (Except.ok ()) (some (freshJob 0)) (Except.error StorageErr.failure) 5
      = { status := 500 } ∧
    ({ status := 500 } : Response) ≠ { status := 200, link := some (freshJob 0).hiringLink } := by
  decide

/-! ## Bucket counter coherence -/

theorem classifyDevice_sum (ua : String) (d : DeviceInfo) :
    (classifyDevice ua d).desktop + (classifyDevice ua d).mobile
      + (classifyDevice ua d).tablet = d.desktop + d.mobile + d.tablet + 1 := by
  by_cases h1 : strIncludes ua ("Mobile") = true <;>
    by_cases h2 : strIncludes ua ("Tablet") = true <;>
      simp [classifyDevice, h1, h2] <;> omega

theorem classifyBrowser_sum (ua : String) (b : BrowserInfo) :
    (classifyBrowser ua b).chrome + (classifyBrowser ua b).firefox
      + (classifyBrowser ua b).safari + (classifyBrowser ua b).edge
      + (classifyBrowser ua b).others
      = b.chrome + b.firefox + b.safari + b.edge + b.others + 1 := by
  by_cases h1 : strIncludes ua ("Chrome") = true <;>
    by_cases h2 : strIncludes ua ("Firefox") = true <;>
      by_cases h3 : strIncludes ua ("Safari") = true <;>
        by_cases h4 : strIncludes ua ("Edge") = true <;>
          simp [classifyBrowser, h1, h2, h3, h4] <;> omega

theorem countersOk_applyAOp (o : AOp) (b : Bucket) (h : b.countersOk) :
    (applyAOp o b).countersOk := by
  obtain ⟨h1, h2⟩ := h
  cases o with
  | visit ip ua now =>
      constructor
      · show (classifyDevice ua b.deviceInfo).desktop
            + (classifyDevice ua b.deviceInfo).mobile
            + (classifyDevice ua b.deviceInfo).tablet = b.websiteVisits + 1
        rw [classifyDevice_sum, h1]
      · show (classifyBrowser ua b.browserInfo).chrome
            + (classifyBrowser ua b.browserInfo).firefox
            + (classifyBrowser ua b.browserInfo).safari
            + (classifyBrowser ua b.browserInfo).edge
            + (classifyBrowser ua b.browserInfo).others = b.websiteVisits + 1
        rw [classifyBrowser_sum, h2]
  | view jobId => exact ⟨h1, h2⟩
  | click jobId => exact ⟨h1, h2⟩

theorem countersOk_applyAOps (ops : List AOp) :
    ∀ b : Bucket, b.countersOk → (applyAOps ops b).countersOk := by
  induction ops with
  | nil => intro b hb; exact hb
  | cons o os ih => intro b hb; exact ih (applyAOp o b) (countersOk_applyAOp o b hb)

/-- C10 — in every bucket reachable from a fresh day bucket by Record
operations, the device counters and the browser counters each sum to
websiteVisits: every recorded visit bumps websiteVisits, exactly one device
counter and exactly one browser counter, and the job view and click
operations touch none of them. -/
theorem bucket_counter_sums (ops : List AOp) (d : Int) :
    (applyAOps ops (emptyBucket d)).countersOk :=
  countersOk_applyAOps ops (emptyBucket d) ⟨rfl, rfl⟩

/-! ## Range query population -/

/-- C8 (amended) — the range query returns exactly the stored buckets whose
date lies in the inclusive interval, and in each returned bucket a per-job
entry whose job no longer exists is kept with its count but with its job
reference resolved to null (entries are not dropped; the stored buckets are
read, not modified). -/
theorem range_query_keeps_null_entries (store : List Bucket) (jobs : List Nat)
    (s e : Int) :
    (∀ b ∈ store, s ≤ b.date → b.date ≤ e →
        populateBucket jobs b ∈ getAnalyticsForDateRange store jobs s e) ∧
    (∀ pb ∈ getAnalyticsForDateRange store jobs s e,
        ∃ b, b ∈ store ∧ s ≤ b.date ∧ b.date ≤ e ∧ pb = populateBucket jobs b) ∧
    (∀ b : Bucket, (populateBucket jobs b).jobViews.length = b.jobViews.length ∧
        (populateBucket jobs b).jobClicks.length = b.jobClicks.length) ∧
    (∀ b : Bucket, ∀ en ∈ b.jobViews, jobs.contains en.jobId = false →
        PopEntry.mk none en.count ∈ (populateBucket jobs b).jobViews) ∧
    (∀ b : Bucket, ∀ en ∈ b.jobClicks, jobs.contains en.jobId = false →
        PopEntry.mk none en.count ∈ (populateBucket jobs b).jobClicks) := by
  refine ⟨?_, ?_, ?_, ?_, ?_⟩
  · intro b hb hs he
    unfold getAnalyticsForDateRange
    exact List.mem_map_of_mem _ (List.mem_filter.mpr ⟨hb, by simp [hs, he]⟩)
  · intro pb hpb
    unfold getAnalyticsForDateRange at hpb
    obtain ⟨b, hbf, rfl⟩ := List.mem_map.mp hpb
    obtain ⟨hb, hcond⟩ := List.mem_filter.mp hbf
    simp only [Bool.and_eq_true, decide_eq_true_eq] at hcond
    exact ⟨b, hb, hcond.1, hcond.2, rfl⟩
  · intro b
    constructor <;> simp [populateBucket]
  · intro b en hen hmiss
    have hpe : populateEntry jobs en = PopEntry.mk none en.count := by
      simp only [populateEntry, hmiss, Bool.false_eq_true, if_false]
    show PopEntry.mk none en.count ∈ b.jobViews.map (populateEntry jobs)
    rw [← hpe]
    exact List.mem_map_of_mem _ hen
  · intro b en hen hmiss
    have hpe : populateEntry jobs en = PopEntry.mk none en.count := by
      simp only [populateEntry, hmiss, Bool.false_eq_true, if_false]
    show PopEntry.mk none en.count ∈ b.jobClicks.map (populateEntry jobs)
    rw [← hpe]
    exact List.mem_map_of_mem _ hen

/-- A stored bucket holding a view entry for job 5, which no longer exists
in the job store used below. -/
def staleBucket : Bucket :=
  { emptyBucket 0 with jobViews := [{ jobId := 5, count := 3 }] }

/-- Witness for the amended C8: the in-range stale bucket is returned,
populated. -/
theorem range_query_keeps_null_entries_witness :
    staleBucket ∈ [staleBucket] ∧ (0 : Int) ≤ staleBucket.date ∧ staleBucket.date ≤ 0 ∧
    populateBucket [] staleBucket ∈ getAnalyticsForDateRange [staleBucket] [] 0 0 :=
  ⟨by decide, by decide, by decide,
   (range_query_keeps_null_entries [staleBucket] [] 0 0).1 staleBucket
     (by decide) (by decide) (by decide)⟩

/-- C8 counterexample — job 5 no longer exists, yet the returned bucket
still carries its view entry (count 3) with a null job reference: the entry
is not dropped from the result as claimed. -/
theorem range_query_drop_cex :
    ([] : List Nat).contains 5 = false ∧
    (getAnalyticsForDateRange [staleBucket] [] 0 0).map PopBucket.jobViews
      = [[{ jobId := none, count := 3 }]] ∧
    ([[{ jobId := none, count := 3 }]] : List (List PopEntry)) ≠ [[]] := by
  decide

/-! ## Dashboard window -/

/-- C7 (amended) — Dashboard(days) aggregates exactly the buckets of the
last days + 1 calendar days, the inclusive window from today - days to
today: every stored bucket inside that window contributes to each of the
four totals and no bucket outside it does. -/
theorem dashboard_window (store : List Bucket) (jobs : List Nat)
    (today : Int) (days : Nat) (_h : 1 ≤ days) :
    (getDashboardAnalytics store jobs today days).totalVisits
      = ((store.filter (fun b => decide (today - (days : Int) ≤ b.date)
            && decide (b.date ≤ today))).map (fun b => b.websiteVisits)).sum ∧
    (getDashboardAnalytics store jobs today days).totalUniqueVisitors
      = ((store.filter (fun b => decide (today - (days : Int) ≤ b.date)
            && decide (b.date ≤ today))).map (fun b => b.uniqueVisitors.length)).sum ∧
    (getDashboardAnalytics store jobs today days).totalJobViews
      = ((store.filter (fun b => decide (today - (days : Int) ≤ b.date)
            && decide (b.date ≤ today))).map
              (fun b => (b.jobViews.map (fun en => en.count)).sum)).sum ∧
    (getDashboardAnalytics store jobs today days).totalJobClicks
      = ((store.filter (fun b => decide (today - (days : Int) ≤ b.date)
            && decide (b.date ≤ today))).map
              (fun b => (b.jobClicks.map (fun en => en.count)).sum)).sum := by
  refine ⟨?_, ?_, ?_, ?_⟩ <;>
    simp [getDashboardAnalytics, getAnalyticsForDateRange, List.map_map,
      Function.comp_def, populateBucket, populateEntry]

/-- Witness for the amended C7 on a one-bucket store and days = 1. -/
theorem dashboard_window_witness :
    (1 : Nat) ≤ 1 ∧
    (getDashboardAnalytics [emptyBucket 0] [] 0 1).totalVisits
      = (([emptyBucket 0].filter (fun b => decide ((0 : Int) - (1 : Int) ≤ b.date)
            && decide (b.date ≤ 0))).map (fun b => b.websiteVisits)).sum :=
  ⟨by decide, (dashboard_window [emptyBucket 0] [] 0 1 (by decide)).1⟩

/-- A bucket dated the day before the reference day, carrying five visits. -/
def oldBucket : Bucket :=
  { emptyBucket (-1) with websiteVisits := 5 }

/-- C7 counterexample — with days = 1 the claimed window is today only, yet
the bucket of the previous day (date -1, today 0) contributes its five
visits to the total: the actual window spans days + 1 calendar days. -/
theorem dashboard_window_cex :
    (getDashboardAnalytics [oldBucket] [] 0 1).totalVisits = 5 ∧
    oldBucket.date < 0 - ((1 : Int) - 1) := by
  decide

end Articademy
